import Mathlib

/-!
Verification development for the node entity of a visual dataflow-graph
editor (file `src/Node.cpp`).  The C++ class `QtNodes::Node` is shallowly
embedded: pure computations become Lean functions, the mutations performed
by each member function become explicit state passing on a `Node` record,
and the toolkit side effects (repaints, geometry recalculation, signal
emissions) are recorded as an explicit event trace returned by each
operation.  Member functions that dereference the node's graphics-object
pointer return `Option`; a `none` result models the null-pointer
dereference that the C++ performs when no graphics object is attached.
-/

namespace QtNodes

/-- Port side of a node, mirroring the C++ `PortType` enumeration
(only the `In`/`Out` members are used by `Node.cpp`). -/
inductive PortType where
  | In
  | Out
deriving DecidableEq, Repr

/-- Port indices.  In the C++ source `PortIndex` is an `int`; every value
flowing through `Node.cpp` is a container index or size, so it is modelled
as `Nat`. -/
abbrev PortIndex := Nat

/-! ### JSON values

Model of Qt's `QJsonValue`: the `undef` constructor stands for
`QJsonValue::Undefined`, the value produced when a key is absent from a
`QJsonObject`.  Numbers are modelled as rationals: `Node.cpp` performs no
arithmetic on them, it only stores and retrieves coordinates. -/

inductive JsonValue where
  | undef
  | null
  | bool (b : Bool)
  | num (q : ℚ)
  | str (s : String)
  | arr (elems : List JsonValue)
  | obj (fields : List (String × JsonValue))

/-- A `QJsonObject`: an association list of string keys to values. -/
abbrev JsonObject := List (String × JsonValue)

/-- `QJsonObject::operator[]` for reading: the value at the first
occurrence of the key, or `Undefined` when the key is absent. -/
def jGet (o : JsonObject) (k : String) : JsonValue :=
  match o.find? (fun p => p.1 = k) with
  | some p => p.2
  | none => JsonValue.undef

/-- `QJsonValue::toString()` with the default null string coerced to the
empty string: a non-string value yields `""`. -/
def jToString : JsonValue → String
  | JsonValue.str s => s
  | _ => ""

/-- `QJsonValue::toDouble()`: a non-number value yields `0`. -/
def jToDouble : JsonValue → ℚ
  | JsonValue.num q => q
  | _ => 0

/-- `QJsonValue::toObject()`: a non-object value yields the empty object. -/
def jToObject : JsonValue → JsonObject
  | JsonValue.obj o => o
  | _ => []

/-! ### UUIDs

Model of Qt's `QUuid`, which is external toolkit code: a `Uuid` is a
natural number, `0` standing for the null UUID.  `QUuid::toString` is
modelled as the decimal rendering of that number and `QUuid(QString)` as
the decimal parse; the model keeps the properties `Node.cpp` relies on:
the rendering is injective, parsing inverts it, and a malformed string
parses to the null UUID. -/

abbrev Uuid := Nat

/-- A decimal digit as a character. -/
def digitChar (d : Nat) : Char := Char.ofNat (48 + d)

/-- The digit denoted by a character (meaningful on `'0'`–`'9'`). -/
def charDigit (c : Char) : Nat := c.toNat - 48

/-- Whether a character is a decimal digit. -/
def isDigitChar (c : Char) : Bool := 48 ≤ c.toNat && c.toNat ≤ 57

/-- `QUuid::toString`, modelled as the decimal rendering (most significant
digit first) of the underlying number; the null UUID renders as `""`. -/
def uuidRender (u : Uuid) : String :=
  String.mk (((Nat.digits 10 u).map digitChar).reverse)

/-- `QUuid(QString)`: parse a decimal string; any malformed string (empty,
or containing a non-digit) yields the null UUID `0`. -/
def uuidParse (s : String) : Uuid :=
  if s.data ≠ [] ∧ s.data.all isDigitChar then
    Nat.ofDigits 10 (s.data.reverse.map charDigit)
  else 0


/-! ### Toolkit-side records

The graphics scene item, geometry engine and connection class are external
collaborators of `Node.cpp`; only the pieces of their interface that
`Node.cpp` touches are modelled. -/

/-- A scene coordinate pair (`QPointF`); coordinates are rationals since
`Node.cpp` only stores and retrieves them. -/
structure QPointF where
  x : ℚ
  y : ℚ
deriving DecidableEq, Repr

/-- The id/name pair identifying a port data type (`NodeDataType`). -/
structure NodeDataType where
  id : String
  name : String
deriving DecidableEq, Repr

/-- The node graphics object (`NodeGraphicsObject`), reduced to what
`Node.cpp` reads from it: the scene position, and the inverse scene
transform used by `reactToPossibleConnection` (the composite
`t.inverted().map`). -/
structure NodeGraphicsObject where
  pos : QPointF
  sceneInvMap : QPointF → QPointF

/-- Modelled from the spec: the node's visual geometry/layout engine
(`NodeGeometry`, an excluded external collaborator) reduced to the only
piece of state `Node.cpp` writes through it, the live-drag position; the
size-cache recalculations it performs are recorded as trace events. -/
structure NodeGeometry where
  draggingPos : QPointF

/-- The slice of a `Connection` that `Node.cpp` reads: its identity, the
upstream (`PortType::Out`) node's model output function — standing for
`c->getNode(PortType::Out)->nodeDataModel()->outData(·)` — the upstream
port index, and the optional type converter (`nullptr` = `none`). -/
structure Connection (Data : Type) where
  id : Nat
  outNodeOutData : PortIndex → Data
  outPortIndex : PortIndex
  converter : Option (Data → Data)

/-- A `NodeState::ConnectionPtrSet` (`unordered_map<QUuid, Connection*>`):
key/connection pairs listed in enumeration order. -/
abbrev ConnectionSet (Data : Type) := List (Nat × Connection Data)

/-- The reacting flag/type used for drag-and-drop feedback. -/
inductive ReactionState where
  | reacting (portType : PortType) (dataType : NodeDataType)
  | notReacting

/-- Modelled from the spec: `NodeState` (its source is not part of the
excerpt) is the per-node table of active connections keyed by port type
and index, plus the reacting flag/type. -/
structure NodeState (Data : Type) where
  inEntries : List (ConnectionSet Data)
  outEntries : List (ConnectionSet Data)
  reaction : ReactionState

/-- `NodeState::getEntries`: the per-port-index vector of connection sets
for one side. -/
def NodeState.getEntries (s : NodeState Data) : PortType → List (ConnectionSet Data)
  | PortType.In => s.inEntries
  | PortType.Out => s.outEntries

/-- `NodeState::connections(portType, index)`: the connection set at one
port (empty when the index is out of range). -/
def NodeState.connections (s : NodeState Data) (t : PortType) (i : PortIndex) :
    ConnectionSet Data :=
  (s.getEntries t).getD i []

/-- `NodeState::setReaction`. -/
def NodeState.setReaction (s : NodeState Data) (r : ReactionState) : NodeState Data :=
  { s with reaction := r }

/-- `std::vector::resize` on a vector of connection sets: truncate or pad
with empty sets. -/
def resizeEntries (l : List (ConnectionSet Data)) (n : Nat) : List (ConnectionSet Data) :=
  l.take n ++ List.replicate (n - l.length) []

/-- Modelled from the spec: `NodeState::updatePortCount` resizes both
per-side connection tables to the given port counts. -/
def NodeState.updatePortCount (s : NodeState Data) (nIn nOut : Nat) : NodeState Data :=
  { s with inEntries := resizeEntries s.inEntries nIn,
           outEntries := resizeEntries s.outEntries nOut }

/-- The interface of a `NodeDataModel` over a model-state type `M`:
the virtual member functions of the owned data model that `Node.cpp`
calls, with their mutations made explicit. -/
structure ModelSpec (Data M : Type) where
  save : M → JsonObject
  restore : M → JsonObject → M
  outData : M → PortIndex → Data
  setInData : M → List Data → PortIndex → M
  nPorts : M → PortType → Nat
  hasEmbeddedWidget : M → Bool

/-- Observable side effects of the node's member functions: toolkit
repaint/geometry calls and signal emissions, in the order the C++
performs them. -/
inductive Event (Data : Type) where
  | setGeometryChanged
  | recalculateSize
  | updateGfx
  | moveConnections
  | geomUpdatePortCount
  | adjustSize
  | setInData (data : List Data) (port : PortIndex)
  | killConnection (connId : Nat)
  | connPropagateData (connId : Nat) (d : Data)
  | connGfxMove (connId : Nat)
deriving DecidableEq

/-- The body of `Node::recalculateVisuals`:
`setGeometryChanged; recalculateSize; update(); moveConnections()`. -/
def recalcVisualEvents (Data : Type) : List (Event Data) :=
  [Event.setGeometryChanged, Event.recalculateSize, Event.updateGfx,
   Event.moveConnections]

/-- The node: unique identifier, owned data-model state, connection/port
state, geometry, and the graphics-object pointer (`none` = null). -/
structure Node (Data M : Type) where
  uid : Uuid
  model : M
  state : NodeState Data
  geometry : NodeGeometry
  graphicsObject : Option NodeGraphicsObject

variable {Data M : Type}

/-- `Node::Node(std::unique_ptr<NodeDataModel>&&)`: the freshly generated
`QUuid::createUuid()` is passed in as `uid` (the model's source of
freshness), the graphics pointer starts out null.  The connection tables
start empty per port (modelled from the spec's description of
`NodeState`, whose constructor is not part of the excerpt). -/
def Node.new (spec : ModelSpec Data M) (uid : Uuid) (m : M) : Node Data M :=
  { uid := uid
    model := m
    state := { inEntries := List.replicate (spec.nPorts m PortType.In) []
               outEntries := List.replicate (spec.nPorts m PortType.Out) []
               reaction := ReactionState.notReacting }
    geometry := { draggingPos := ⟨0, 0⟩ }
    graphicsObject := none }

/-- `Node::id()`. -/
def Node.id (n : Node Data M) : Uuid := n.uid

/-- `Node::setGraphicsObject`: store the pointer, then
`_nodeGeometry.recalculateSize()`. -/
def Node.setGraphicsObject (n : Node Data M) (g : NodeGraphicsObject) :
    Node Data M × List (Event Data) :=
  ({ n with graphicsObject := some g }, [Event.recalculateSize])

/-- `Node::save()`: build the JSON object field by field (`id`, `model`,
`position`); reading `_nodeGraphicsObject->pos()` dereferences the
graphics pointer. -/
def Node.save (spec : ModelSpec Data M) (n : Node Data M) : Option JsonObject :=
  match n.graphicsObject with
  | none => none
  | some g =>
    some [("id", JsonValue.str (uuidRender n.uid)),
          ("model", JsonValue.obj (spec.save n.model)),
          ("position", JsonValue.obj
            [("x", JsonValue.num g.pos.x), ("y", JsonValue.num g.pos.y)])]

/-- `Node::restore(QJsonObject const&)`: parse the id, read the position
object and its coordinates with Qt's defaulting coercions, move the
graphics object (a dereference), and forward the model sub-object. -/
def Node.restore (spec : ModelSpec Data M) (n : Node Data M) (json : JsonObject) :
    Option (Node Data M) :=
  match n.graphicsObject with
  | none => none
  | some g =>
    let uid := uuidParse (jToString (jGet json "id"))
    let positionJson := jToObject (jGet json "position")
    let point : QPointF :=
      ⟨jToDouble (jGet positionJson "x"), jToDouble (jGet positionJson "y")⟩
    let model := spec.restore n.model (jToObject (jGet json "model"))
    some { n with uid := uid, model := model,
                  graphicsObject := some { g with pos := point } }

/-- `Node::reactToPossibleConnection`: map the scene point through the
inverted scene transform (a graphics dereference), store it as the
dragging position, repaint, and set the reaction state. -/
def Node.reactToPossibleConnection (n : Node Data M) (reactingPortType : PortType)
    (reactingDataType : NodeDataType) (scenePoint : QPointF) :
    Option (Node Data M × List (Event Data)) :=
  match n.graphicsObject with
  | none => none
  | some g =>
    let nodePoint := g.sceneInvMap scenePoint
    some ({ n with
              geometry := { n.geometry with draggingPos := nodePoint }
              state := n.state.setReaction
                (ReactionState.reacting reactingPortType reactingDataType) },
          [Event.updateGfx])

/-- `Node::resetReactionToConnection`: clear the reaction state, then
repaint through the graphics pointer (a dereference). -/
def Node.resetReactionToConnection (n : Node Data M) :
    Option (Node Data M × List (Event Data)) :=
  match n.graphicsObject with
  | none => none
  | some _ =>
    some ({ n with state := n.state.setReaction ReactionState.notReacting },
          [Event.updateGfx])

/-- `Node::recalculateVisuals()`: the four-call repaint cascade through
the graphics pointer. -/
def Node.recalculateVisuals (n : Node Data M) : Option (List (Event Data)) :=
  match n.graphicsObject with
  | none => none
  | some _ => some (recalcVisualEvents Data)

/-- `Node::propagateData(PortIndex)`: loop over the incoming connections
at the port accumulating upstream output values (converted when a
converter is attached), hand the list to the model via `setInData`, then
run the inline repaint cascade followed by `recalculateVisuals()` (both
dereference the graphics pointer). -/
def Node.propagateData (spec : ModelSpec Data M) (n : Node Data M)
    (inPortIndex : PortIndex) : Option (Node Data M × List (Event Data)) :=
  match n.graphicsObject with
  | none => none
  | some _ =>
    let connections := n.state.connections PortType.In inPortIndex
    let nodeData := connections.foldl
      (fun acc p =>
        let c := p.2
        let outData := c.outNodeOutData c.outPortIndex
        let outData :=
          match c.converter with
          | some conv => conv outData
          | none => outData
        acc ++ [outData]) []
    some ({ n with model := spec.setInData n.model nodeData inPortIndex },
      Event.setInData nodeData inPortIndex ::
        ([Event.setGeometryChanged, Event.recalculateSize, Event.updateGfx,
          Event.moveConnections] ++ recalcVisualEvents Data))

/-- `Node::onDataUpdated(PortIndex)`: fetch the model's output value at
the port once and call `Connection::propagateData` with it on every
connection registered at `(Out, index)`. -/
def Node.onDataUpdated (spec : ModelSpec Data M) (n : Node Data M)
    (index : PortIndex) : Node Data M × List (Event Data) :=
  let nodeData := spec.outData n.model index
  let connections := n.state.connections PortType.Out index
  (n, connections.map (fun p => Event.connPropagateData p.2.id nodeData))

/-- `Node::onNodeSizeUpdated()`: adjust the embedded widget's size when
one exists, recalculate the geometry, then move every attached
connection's graphics object (both sides, in entry order). -/
def Node.onNodeSizeUpdated (spec : ModelSpec Data M) (n : Node Data M) :
    Node Data M × List (Event Data) :=
  let widgetEvents : List (Event Data) :=
    if spec.hasEmbeddedWidget n.model then [Event.adjustSize] else []
  let moveEvents := ([PortType.In, PortType.Out]).flatMap (fun t =>
    (n.state.getEntries t).flatMap (fun connSet =>
      connSet.map (fun p => Event.connGfxMove p.2.id)))
  (n, widgetEvents ++ [Event.recalculateSize] ++ moveEvents)

/-- The `killConnection` emissions of `Node::onPortCountChanged` for one
side: `for (index = newCount; index < oldCount; ++index)` over the
entries, emitting once per registered connection at each dead index. -/
def killEvents (entries : List (ConnectionSet Data)) (newCount : Nat) :
    List (Event Data) :=
  (List.range' newCount (entries.length - newCount)).flatMap
    (fun index => (entries.getD index []).map
      (fun p => Event.killConnection p.2.id))

/-- `Node::onPortCountChanged()`: for each side emit `killConnection` for
every connection at a now-out-of-range index, then resize the state's
port tables to the model's current counts, update the geometry's port
count and run `recalculateVisuals()` (a graphics dereference). -/
def Node.onPortCountChanged (spec : ModelSpec Data M) (n : Node Data M) :
    Option (Node Data M × List (Event Data)) :=
  match n.graphicsObject with
  | none => none
  | some _ =>
    let kills := ([PortType.In, PortType.Out]).flatMap (fun portType =>
      killEvents (n.state.getEntries portType) (spec.nPorts n.model portType))
    let state' := n.state.updatePortCount (spec.nPorts n.model PortType.In)
      (spec.nPorts n.model PortType.Out)
    some ({ n with state := state' },
      kills ++ (Event.geomUpdatePortCount :: recalcVisualEvents Data))

/-! ### Specification-level derived definitions -/

/-- The value a single incoming connection contributes during data
propagation: the upstream node's output at the connection's out port,
converted exactly when a converter is attached. -/
def connectionValue (c : Connection Data) : Data :=
  match c.converter with
  | some conv => conv (c.outNodeOutData c.outPortIndex)
  | none => c.outNodeOutData c.outPortIndex

/-- The list `propagateData` hands to the model: one value per incoming
connection at the port, in enumeration order. -/
def inputList (n : Node Data M) (i : PortIndex) : List Data :=
  (n.state.connections PortType.In i).map (fun p => connectionValue p.2)

/-- The multiset of connection ids registered at the dead indexes (those
at or above the new port count) of one side's entries, as an occurrence
count per id. -/
def deadKillCount (entries : List (ConnectionSet Data)) (newCount cid : Nat) : Nat :=
  ((entries.drop newCount).flatMap (fun connSet =>
    connSet.map (fun p => p.2.id))).count cid

/-- The JSON object `Node::save` builds for a node with graphics object
`g` attached. -/
def savedJson (spec : ModelSpec Data M) (n : Node Data M)
    (g : NodeGraphicsObject) : JsonObject :=
  [("id", JsonValue.str (uuidRender n.uid)),
   ("model", JsonValue.obj (spec.save n.model)),
   ("position", JsonValue.obj
     [("x", JsonValue.num g.pos.x), ("y", JsonValue.num g.pos.y)])]

/-! ### A concrete instantiation

A small executable data model and node used to evaluate the theorems on
concrete inputs. -/

/-- A concrete data model over natural numbers: the model state is a
natural number that also drives the input port count. -/
def demoSpec : ModelSpec Nat Nat :=
  { save := fun m => [("v", JsonValue.num (m : ℚ))]
    restore := fun _ o => (jToDouble (jGet o "v")).num.toNat
    outData := fun m i => m + 10 * i
    setInData := fun m l _ => m + l.length
    nPorts := fun m t => match t with
      | PortType.In => m + 1
      | PortType.Out => 1
    hasEmbeddedWidget := fun _ => true }

/-- A connection with a doubling converter attached. -/
def demoConn1 : Connection Nat :=
  { id := 7, outNodeOutData := fun i => i + 100, outPortIndex := 3,
    converter := some (fun d => d * 2) }

/-- A connection without a converter. -/
def demoConn2 : Connection Nat :=
  { id := 8, outNodeOutData := fun i => i + 200, outPortIndex := 0,
    converter := none }

/-- A concrete graphics object at scene position `(5, 6)`. -/
def demoGfx : NodeGraphicsObject :=
  { pos := ⟨5, 6⟩, sceneInvMap := fun p => p }

/-- A concrete node with an attached graphics object, two incoming
connections at input port 0 and one registered connection at the
out-of-range input index 1 (its model state `1` makes `nPorts In = 2`,
so both indexes are live until the model shrinks). -/
def demoNode : Node Nat Nat :=
  { uid := 42
    model := 1
    state := { inEntries := [[(1, demoConn1), (2, demoConn2)], [(9, demoConn2)]]
               outEntries := [[(3, demoConn1)], [], [(4, demoConn2)]]
               reaction := ReactionState.notReacting }
    geometry := { draggingPos := ⟨0, 0⟩ }
    graphicsObject := some demoGfx }

/-- A node identical to `demoNode` but with a null graphics pointer. -/
def demoNodeBare : Node Nat Nat :=
  { demoNode with graphicsObject := none }

/-- A node identical to `demoNode` but whose model state has shrunk to
`0`, so the model's input port count (`1`) is below the two registered
entry indexes. -/
def demoNodeShrink : Node Nat Nat :=
  { demoNode with model := 0 }

/-- The JSON object `demoNode.save demoSpec` produces. -/
def demoSaved : JsonObject :=
  [("id", JsonValue.str (uuidRender 42)),
   ("model", JsonValue.obj [("v", JsonValue.num 1)]),
   ("position", JsonValue.obj [("x", JsonValue.num 5), ("y", JsonValue.num 6)])]

/-- A persisted object with a malformed `id` (a number, not a string) and
a malformed `position` (a boolean, not an object), and no `model` key. -/
def demoBadJson : JsonObject :=
  [("id", JsonValue.num 3), ("position", JsonValue.bool true)]

/-! ### Properties of the UUID model -/

theorem charDigit_digitChar {d : Nat} (hd : d < 10) :
    charDigit (digitChar d) = d := by
  interval_cases d <;> rfl

theorem isDigitChar_digitChar {d : Nat} (hd : d < 10) :
    isDigitChar (digitChar d) = true := by
  interval_cases d <;> rfl

/-- Parsing inverts rendering: the model analogue of
`QUuid(u.toString()) == u`. -/
theorem uuidParse_uuidRender (u : Uuid) : uuidParse (uuidRender u) = u := by
  rcases Nat.eq_zero_or_pos u with hu | hu
  · subst hu
    simp [uuidRender, uuidParse]
  · have hu0 : u ≠ 0 := hu.ne'
    have hne : Nat.digits 10 u ≠ [] := Nat.digits_ne_nil_iff_ne_zero.mpr hu0
    have hdata : (uuidRender u).data = ((Nat.digits 10 u).map digitChar).reverse := rfl
    have hcond : (uuidRender u).data ≠ [] ∧ (uuidRender u).data.all isDigitChar := by
      rw [hdata]
      refine ⟨by simp [hne], ?_⟩
      rw [List.all_eq_true]
      intro c hc
      rw [List.mem_reverse, List.mem_map] at hc
      obtain ⟨d, hd, rfl⟩ := hc
      exact isDigitChar_digitChar (Nat.digits_lt_base (by norm_num) hd)
    rw [uuidParse, if_pos hcond, hdata, List.reverse_reverse, List.map_map]
    have hmap : (Nat.digits 10 u).map (charDigit ∘ digitChar) = Nat.digits 10 u := by
      conv_rhs => rw [← List.map_id (Nat.digits 10 u)]
      exact List.map_congr_left (fun d hd =>
        charDigit_digitChar (Nat.digits_lt_base (by norm_num) hd))
    rw [hmap]
    exact Nat.ofDigits_digits 10 u

theorem uuidParse_empty : uuidParse "" = 0 := by
  simp [uuidParse]

/-! ### Properties of the JSON coercions -/

theorem jToString_default (v : JsonValue) (h : ∀ s, v ≠ JsonValue.str s) :
    jToString v = "" := by
  cases v <;> first | rfl | exact absurd rfl (h _)

theorem jToDouble_default (v : JsonValue) (h : ∀ q, v ≠ JsonValue.num q) :
    jToDouble v = 0 := by
  cases v <;> first | rfl | exact absurd rfl (h _)

theorem jToObject_default (v : JsonValue) (h : ∀ o, v ≠ JsonValue.obj o) :
    jToObject v = [] := by
  cases v <;> first | rfl | exact absurd rfl (h _)

/-! ### Structural helper lemmas -/

/-- The accumulation loop of `propagateData` produces the per-connection
value list in enumeration order. -/
theorem foldl_connValue (l : ConnectionSet Data) (acc : List Data) :
    l.foldl (fun a p =>
      let c := p.2
      let outData := c.outNodeOutData c.outPortIndex
      let outData :=
        match c.converter with
        | some conv => conv outData
        | none => outData
      a ++ [outData]) acc = acc ++ l.map (fun p => connectionValue p.2) := by
  induction l generalizing acc with
  | nil => simp
  | cons x xs ih =>
    rw [List.foldl_cons, ih, List.map_cons]
    cases hx : x.2.converter <;> simp [connectionValue, hx]

/-- An index loop from `k` to the end of a list, reading by index, visits
exactly the dropped suffix. -/
theorem range'_getD_flatMap {α β : Type} (l : List α) (f : α → List β) (d : α) :
    ∀ m k, m = l.length - k →
      (List.range' k m).flatMap (fun i => f (l.getD i d)) = (l.drop k).flatMap f := by
  intro m
  induction m with
  | zero =>
    intro k hk
    rw [List.drop_eq_nil_of_le (by omega)]
    rfl
  | succ m ih =>
    intro k hk
    have hklt : k < l.length := by omega
    have hgD : l.getD k d = l[k] := by
      rw [List.getD_eq_getElem?_getD, List.getElem?_eq_getElem hklt]
      rfl
    rw [List.range'_succ, List.flatMap_cons, ih (k + 1) (by omega), hgD,
      List.drop_eq_getElem_cons hklt, List.flatMap_cons]

/-- `killEvents` is the kill of every connection id registered at a dead
index, in index order then entry order. -/
theorem killEvents_eq (entries : List (ConnectionSet Data)) (newCount : Nat) :
    killEvents entries newCount =
      ((entries.drop newCount).flatMap (fun connSet =>
        connSet.map (fun p => p.2.id))).map Event.killConnection := by
  unfold killEvents
  rw [range'_getD_flatMap entries _ [] (entries.length - newCount) newCount rfl]
  rw [List.map_flatMap]
  simp [List.map_map, Function.comp_def]

/-- Counting one connection id among the kill emissions for one side. -/
theorem killEvents_count [DecidableEq Data] (entries : List (ConnectionSet Data))
    (newCount cid : Nat) :
    (killEvents entries newCount).count ((Event.killConnection cid : Event Data)) =
      deadKillCount entries newCount cid := by
  rw [killEvents_eq, deadKillCount]
  exact List.count_map_of_injective _ _ (fun a b h => by injection h) cid

/-- `std::vector::resize` yields the requested length. -/
theorem resizeEntries_length (l : List (ConnectionSet Data)) (n : Nat) :
    (resizeEntries l n).length = n := by
  simp [resizeEntries]
  omega

/-- Full characterization of `Node::propagateData` when the graphics
object is attached. -/
theorem propagateData_eq (spec : ModelSpec Data M) (n : Node Data M)
    (i : PortIndex) (g : NodeGraphicsObject) (hg : n.graphicsObject = some g) :
    n.propagateData spec i =
      some ({ n with model := spec.setInData n.model (inputList n i) i },
        Event.setInData (inputList n i) i ::
          (recalcVisualEvents Data ++ recalcVisualEvents Data)) := by
  simp only [Node.propagateData, hg, foldl_connValue, List.nil_append]
  rfl

/-! ### Claim theorems -/

/-- C1: for every input port `i` with the graphics object attached,
`Node::propagateData(i)` computes one value per incoming connection at
`(In, i)` in enumeration order — the upstream node's output at the
connection's out port, run through the connection's converter exactly
when one is attached (a null converter leaves the value unchanged) —
passes the whole list to the data model via `setInData(list, i)`, and
only afterwards emits the visual-size recalculation and repaint cascade
(`setGeometryChanged`, `recalculateSize`, `update`, `moveConnections`)
for the node and its attached connections. -/
theorem propagateData_gathers_then_repaints (spec : ModelSpec Data M)
    (n : Node Data M) (i : PortIndex) (g : NodeGraphicsObject)
    (hg : n.graphicsObject = some g) :
    n.propagateData spec i =
      some ({ n with model := spec.setInData n.model (inputList n i) i },
        Event.setInData (inputList n i) i ::
          (recalcVisualEvents Data ++ recalcVisualEvents Data)) ∧
    inputList n i =
      (n.state.connections PortType.In i).map (fun p => connectionValue p.2) ∧
    (∀ c : Connection Data, c.converter = none →
      connectionValue c = c.outNodeOutData c.outPortIndex) ∧
    (∀ (c : Connection Data) (f : Data → Data), c.converter = some f →
      connectionValue c = f (c.outNodeOutData c.outPortIndex)) := by
  refine ⟨propagateData_eq spec n i g hg, rfl, ?_, ?_⟩
  · intro c h
    simp [connectionValue, h]
  · intro c f h
    simp [connectionValue, h]

theorem propagateData_gathers_then_repaints_witness :
    demoNode.graphicsObject = some demoGfx ∧
    demoNode.propagateData demoSpec 0 =
      some ({ demoNode with model := 3 },
        Event.setInData [206, 200] 0 ::
          (recalcVisualEvents Nat ++ recalcVisualEvents Nat)) :=
  ⟨rfl, (propagateData_gathers_then_repaints demoSpec demoNode 0 demoGfx rfl).1⟩

/-- C3: with the graphics object attached, `Node::save()` produces a JSON
object whose fields are exactly `id` (the UUID rendered as a string),
`model` (the data model's own `save()` object) and `position` (an object
with numeric fields `x` and `y` equal to the graphics object's scene
coordinates). -/
theorem save_persisted_format (spec : ModelSpec Data M) (n : Node Data M)
    (g : NodeGraphicsObject) (hg : n.graphicsObject = some g) :
    ∀ js, n.save spec = some js →
      js.map Prod.fst = ["id", "model", "position"] ∧
      jGet js "id" = JsonValue.str (uuidRender n.uid) ∧
      jGet js "model" = JsonValue.obj (spec.save n.model) ∧
      jGet js "position" = JsonValue.obj
        [("x", JsonValue.num g.pos.x), ("y", JsonValue.num g.pos.y)] := by
  have hsave : n.save spec = some
      [("id", JsonValue.str (uuidRender n.uid)),
       ("model", JsonValue.obj (spec.save n.model)),
       ("position", JsonValue.obj
         [("x", JsonValue.num g.pos.x), ("y", JsonValue.num g.pos.y)])] := by
    simp [Node.save, hg]
  intro js hjs
  rw [hsave] at hjs
  obtain rfl : _ = js := Option.some.inj hjs
  refine ⟨rfl, ?_, ?_, ?_⟩ <;> rfl

theorem save_persisted_format_witness :
    demoNode.graphicsObject = some demoGfx ∧
    demoNode.save demoSpec = some demoSaved ∧
    (demoSaved.map Prod.fst = ["id", "model", "position"] ∧
     jGet demoSaved "id" = JsonValue.str (uuidRender 42) ∧
     jGet demoSaved "model" = JsonValue.obj (demoSpec.save 1) ∧
     jGet demoSaved "position" = JsonValue.obj
       [("x", JsonValue.num 5), ("y", JsonValue.num 6)]) :=
  ⟨rfl, rfl, save_persisted_format demoSpec demoNode demoGfx rfl demoSaved rfl⟩

/-- C9: when the model signals `dataUpdated(index)`, `Node::onDataUpdated`
fetches the model's output value at `index` once and calls
`Connection::propagateData` with exactly that value on every connection
registered at `(Out, index)`, in order; it touches no other connection
and leaves the node's own state unchanged. -/
theorem onDataUpdated_propagates (spec : ModelSpec Data M) (n : Node Data M)
    (index : PortIndex) :
    (n.onDataUpdated spec index).1 = n ∧
    (n.onDataUpdated spec index).2 =
      (n.state.connections PortType.Out index).map
        (fun p => Event.connPropagateData p.2.id (spec.outData n.model index)) ∧
    ∀ e ∈ (n.onDataUpdated spec index).2,
      ∃ p ∈ n.state.connections PortType.Out index,
        e = Event.connPropagateData p.2.id (spec.outData n.model index) := by
  refine ⟨rfl, rfl, ?_⟩
  intro e he
  obtain ⟨p, hp, rfl⟩ := List.mem_map.mp he
  exact ⟨p, hp, rfl⟩

/-- C2: with the graphics object attached, `Node::restore(j)` always
succeeds: the node's id becomes the parse of the `id` field (the null
UUID when the field is missing, not a string, or not a well-formed UUID
string), the position becomes the coerced `x`/`y` of the `position`
object (each coordinate defaulting to `0` when the object or the field
is missing or malformed), and the `model` sub-object — possibly empty —
is forwarded to the data model's `restore`. -/
theorem restore_silently_defaults (spec : ModelSpec Data M) (n : Node Data M)
    (j : JsonObject) (g : NodeGraphicsObject) (hg : n.graphicsObject = some g) :
    n.restore spec j = some { n with
      uid := uuidParse (jToString (jGet j "id")),
      model := spec.restore n.model (jToObject (jGet j "model")),
      graphicsObject := some { g with pos :=
        ⟨jToDouble (jGet (jToObject (jGet j "position")) "x"),
         jToDouble (jGet (jToObject (jGet j "position")) "y")⟩ } } ∧
    ((∀ s, jGet j "id" ≠ JsonValue.str s) →
      uuidParse (jToString (jGet j "id")) = 0) ∧
    ((∀ o, jGet j "position" ≠ JsonValue.obj o) →
      jToDouble (jGet (jToObject (jGet j "position")) "x") = 0 ∧
      jToDouble (jGet (jToObject (jGet j "position")) "y") = 0) ∧
    (∀ o, jGet j "position" = JsonValue.obj o →
      ((∀ q, jGet o "x" ≠ JsonValue.num q) → jToDouble (jGet o "x") = 0) ∧
      ((∀ q, jGet o "y" ≠ JsonValue.num q) → jToDouble (jGet o "y") = 0)) := by
  refine ⟨?_, ?_, ?_, ?_⟩
  · simp [Node.restore, hg]
  · intro h
    rw [jToString_default _ h, uuidParse_empty]
  · intro h
    rw [jToObject_default _ h]
    exact ⟨rfl, rfl⟩
  · intro o ho
    exact ⟨fun h => jToDouble_default _ h, fun h => jToDouble_default _ h⟩

theorem restore_silently_defaults_witness :
    demoNode.graphicsObject = some demoGfx ∧
    demoNode.restore demoSpec demoBadJson = some { demoNode with
      uid := 0, model := 0,
      graphicsObject := some { demoGfx with pos := ⟨0, 0⟩ } } :=
  ⟨rfl, (restore_silently_defaults demoSpec demoNode demoBadJson demoGfx rfl).1⟩

/-- Characterization of `Node::save` with the graphics object attached. -/
theorem save_eq (spec : ModelSpec Data M) (n : Node Data M)
    (g : NodeGraphicsObject) (hg : n.graphicsObject = some g) :
    n.save spec = some (savedJson spec n g) := by
  simp [Node.save, savedJson, hg]

/-- Characterization of `Node::restore` with the graphics object
attached. -/
theorem restore_eq (spec : ModelSpec Data M) (n : Node Data M) (j : JsonObject)
    (g : NodeGraphicsObject) (hg : n.graphicsObject = some g) :
    n.restore spec j = some { n with
      uid := uuidParse (jToString (jGet j "id")),
      model := spec.restore n.model (jToObject (jGet j "model")),
      graphicsObject := some { g with pos :=
        ⟨jToDouble (jGet (jToObject (jGet j "position")) "x"),
         jToDouble (jGet (jToObject (jGet j "position")) "y")⟩ } } := by
  simp [Node.restore, hg]

/-- Characterization of `Node::onPortCountChanged` with the graphics
object attached. -/
theorem onPortCountChanged_eq (spec : ModelSpec Data M) (n : Node Data M)
    (g : NodeGraphicsObject) (hg : n.graphicsObject = some g) :
    n.onPortCountChanged spec =
      some ({ n with state := (n.state.updatePortCount
                (spec.nPorts n.model PortType.In)
                (spec.nPorts n.model PortType.Out)) },
        killEvents n.state.inEntries (spec.nPorts n.model PortType.In) ++
          (killEvents n.state.outEntries (spec.nPorts n.model PortType.Out) ++ []) ++
          (Event.geomUpdatePortCount :: recalcVisualEvents Data)) := by
  simp [Node.onPortCountChanged, hg, NodeState.getEntries]

/-- C4: each operation that changes the node's input data, embedded
widget size or port count re-establishes the cached geometry before
returning: `propagateData` emits `recalculateSize` after the `setInData`
call, `onNodeSizeUpdated` emits it right after the optional widget
adjustment (followed only by connection moves), and `onPortCountChanged`
emits it after the geometry's `updatePortCount`. -/
theorem geometry_recalculated_before_return (spec : ModelSpec Data M)
    (n : Node Data M) (i : PortIndex) (g : NodeGraphicsObject)
    (hg : n.graphicsObject = some g) :
    (∃ n' tail, n.propagateData spec i =
        some (n', Event.setInData (inputList n i) i :: tail) ∧
      Event.recalculateSize ∈ tail) ∧
    (∃ tail, (n.onNodeSizeUpdated spec).2 =
        (if spec.hasEmbeddedWidget n.model then [Event.adjustSize] else []) ++
          Event.recalculateSize :: tail ∧
      ∀ e ∈ tail, ∃ cid, e = Event.connGfxMove cid) ∧
    (∃ n' kills tail, n.onPortCountChanged spec =
        some (n', kills ++ (Event.geomUpdatePortCount :: tail)) ∧
      Event.recalculateSize ∈ tail) := by
  refine ⟨?_, ?_, ?_⟩
  · exact ⟨_, _, propagateData_eq spec n i g hg, by simp [recalcVisualEvents]⟩
  · have h2 : (n.onNodeSizeUpdated spec).2 =
        (if spec.hasEmbeddedWidget n.model then [Event.adjustSize] else []) ++
          Event.recalculateSize :: (([PortType.In, PortType.Out]).flatMap (fun t =>
            (n.state.getEntries t).flatMap (fun connSet =>
              connSet.map (fun p => Event.connGfxMove p.2.id)))) := by
      simp [Node.onNodeSizeUpdated, List.append_assoc]
    refine ⟨_, h2, ?_⟩
    intro e he
    simp only [List.mem_flatMap, List.mem_map] at he
    obtain ⟨t, -, connSet, -, p, -, rfl⟩ := he
    exact ⟨p.2.id, rfl⟩
  · exact ⟨_, _, _, onPortCountChanged_eq spec n g hg, by simp [recalcVisualEvents]⟩

theorem geometry_recalculated_before_return_witness :
    ∃ n' tail, demoNode.propagateData demoSpec 0 =
        some (n', Event.setInData (inputList demoNode 0) 0 :: tail) ∧
      Event.recalculateSize ∈ tail :=
  (geometry_recalculated_before_return demoSpec demoNode 0 demoGfx rfl).1

/-- C5: a freshly constructed node has a null graphics pointer (until
`setGraphicsObject` stores one), and the graphics dereference inside
`save`, `restore`, `propagateData`, `reactToPossibleConnection`,
`resetReactionToConnection` and `recalculateVisuals` is safe exactly
when a graphics object is attached: with one attached each operation
completes, and with the null pointer each one dereferences null
(modelled as `none`). -/
theorem graphics_pointer_safety (spec : ModelSpec Data M) (u : Uuid) (m : M)
    (n : Node Data M) (g : NodeGraphicsObject) (j : JsonObject) (i : PortIndex)
    (t : PortType) (dt : NodeDataType) (pt : QPointF) :
    (Node.new spec u m).graphicsObject = none ∧
    (n.setGraphicsObject g).1.graphicsObject = some g ∧
    (n.graphicsObject.isSome →
      ((n.save spec).isSome ∧ (n.restore spec j).isSome ∧
       (n.propagateData spec i).isSome ∧
       (n.reactToPossibleConnection t dt pt).isSome ∧
       n.resetReactionToConnection.isSome ∧ n.recalculateVisuals.isSome)) ∧
    (n.graphicsObject = none →
      (n.save spec = none ∧ n.restore spec j = none ∧
       n.propagateData spec i = none ∧
       n.reactToPossibleConnection t dt pt = none ∧
       n.resetReactionToConnection = none ∧ n.recalculateVisuals = none)) := by
  refine ⟨rfl, rfl, ?_, ?_⟩
  · intro h
    obtain ⟨g', hg'⟩ := Option.isSome_iff_exists.mp h
    refine ⟨?_, ?_, ?_, ?_, ?_, ?_⟩ <;>
      simp [Node.save, Node.restore, Node.propagateData,
        Node.reactToPossibleConnection, Node.resetReactionToConnection,
        Node.recalculateVisuals, hg']
  · intro h
    refine ⟨?_, ?_, ?_, ?_, ?_, ?_⟩ <;>
      simp [Node.save, Node.restore, Node.propagateData,
        Node.reactToPossibleConnection, Node.resetReactionToConnection,
        Node.recalculateVisuals, h]

theorem graphics_pointer_safety_witness :
    (demoNode.save demoSpec).isSome ∧ demoNodeBare.save demoSpec = none :=
  ⟨((graphics_pointer_safety demoSpec 0 0 demoNode demoGfx [] 0 PortType.In
      ⟨"t", "t"⟩ ⟨0, 0⟩).2.2.1 rfl).1,
   ((graphics_pointer_safety demoSpec 0 0 demoNodeBare demoGfx [] 0 PortType.In
      ⟨"t", "t"⟩ ⟨0, 0⟩).2.2.2 rfl).1⟩

/-- C6: `Node::id` returns the constructor-supplied (freshly generated)
identifier, so two nodes built from distinct fresh UUIDs have distinct
ids; no operation other than `restore` ever changes the identifier; and
`restore` replaces it with the parse of the persisted `id` field, so
restoring the same JSON into two nodes makes their ids equal. -/
theorem id_fresh_until_restore (spec : ModelSpec Data M) (u1 u2 : Uuid)
    (m1 m2 : M) (n n2 : Node Data M) (g : NodeGraphicsObject) (j : JsonObject)
    (i : PortIndex) (t : PortType) (dt : NodeDataType) (pt : QPointF) :
    (Node.new spec u1 m1).id = u1 ∧
    (u1 ≠ u2 → (Node.new spec u1 m1).id ≠ (Node.new spec u2 m2).id) ∧
    n.id = n.uid ∧
    (n.setGraphicsObject g).1.uid = n.uid ∧
    (∀ n' tr, n.propagateData spec i = some (n', tr) → n'.uid = n.uid) ∧
    (n.onDataUpdated spec i).1.uid = n.uid ∧
    (n.onNodeSizeUpdated spec).1.uid = n.uid ∧
    (∀ n' tr, n.onPortCountChanged spec = some (n', tr) → n'.uid = n.uid) ∧
    (∀ n' tr, n.reactToPossibleConnection t dt pt = some (n', tr) → n'.uid = n.uid) ∧
    (∀ n' tr, n.resetReactionToConnection = some (n', tr) → n'.uid = n.uid) ∧
    (∀ n1' n2', n.restore spec j = some n1' → n2.restore spec j = some n2' →
      n1'.id = uuidParse (jToString (jGet j "id")) ∧ n1'.id = n2'.id) := by
  refine ⟨rfl, fun h => h, rfl, rfl, ?_, rfl, rfl, ?_, ?_, ?_, ?_⟩
  · intro n' tr h
    cases hng : n.graphicsObject with
    | none => simp [Node.propagateData, hng] at h
    | some g' =>
      rw [propagateData_eq spec n i g' hng] at h
      injection h with h'
      injection h' with ha hb
      rw [← ha]
  · intro n' tr h
    cases hng : n.graphicsObject with
    | none => simp [Node.onPortCountChanged, hng] at h
    | some g' =>
      rw [onPortCountChanged_eq spec n g' hng] at h
      injection h with h'
      injection h' with ha hb
      rw [← ha]
  · intro n' tr h
    cases hng : n.graphicsObject with
    | none => simp [Node.reactToPossibleConnection, hng] at h
    | some g' =>
      simp only [Node.reactToPossibleConnection, hng] at h
      injection h with h'
      injection h' with ha hb
      rw [← ha]
  · intro n' tr h
    cases hng : n.graphicsObject with
    | none => simp [Node.resetReactionToConnection, hng] at h
    | some g' =>
      simp only [Node.resetReactionToConnection, hng] at h
      injection h with h'
      injection h' with ha hb
      rw [← ha]
  · intro n1' n2' h1 h2
    cases hng : n.graphicsObject with
    | none => simp [Node.restore, hng] at h1
    | some g' =>
      cases hng2 : n2.graphicsObject with
      | none => simp [Node.restore, hng2] at h2
      | some g2 =>
        rw [restore_eq spec n j g' hng] at h1
        rw [restore_eq spec n2 j g2 hng2] at h2
        injection h1 with h1'
        injection h2 with h2'
        refine ⟨?_, ?_⟩
        · rw [← h1']
          rfl
        · rw [← h1', ← h2']
          rfl

theorem id_fresh_until_restore_witness :
    (Node.new demoSpec 1 5).id = 1 ∧
    (Node.new demoSpec 1 5).id ≠ (Node.new demoSpec 2 5).id :=
  ⟨(id_fresh_until_restore demoSpec 1 2 5 5 demoNode demoNode demoGfx [] 0
      PortType.In ⟨"t", "t"⟩ ⟨0, 0⟩).1,
   (id_fresh_until_restore demoSpec 1 2 5 5 demoNode demoNode demoGfx [] 0
      PortType.In ⟨"t", "t"⟩ ⟨0, 0⟩).2.1 (by decide)⟩

/-- C7: `Node::onPortCountChanged` emits `killConnection` exactly once
per connection registered at a dead index (at or above the model's new
port count) of each side — counted id by id, the emissions match the
dead registrations, and the remainder of the trace contains no kill —
and then resizes the state's port tables to the model's current `nPorts`
values and recalculates the visuals. -/
theorem portCountChange_kills_dead_connections [DecidableEq Data]
    (spec : ModelSpec Data M) (n : Node Data M) (g : NodeGraphicsObject)
    (hg : n.graphicsObject = some g) :
    ∃ n' tail,
      n.onPortCountChanged spec = some (n',
        killEvents n.state.inEntries (spec.nPorts n.model PortType.In) ++
          (killEvents n.state.outEntries (spec.nPorts n.model PortType.Out) ++ []) ++
          tail) ∧
      (∀ cid, (killEvents n.state.inEntries
          (spec.nPorts n.model PortType.In)).count (Event.killConnection cid) =
        deadKillCount n.state.inEntries (spec.nPorts n.model PortType.In) cid) ∧
      (∀ cid, (killEvents n.state.outEntries
          (spec.nPorts n.model PortType.Out)).count (Event.killConnection cid) =
        deadKillCount n.state.outEntries (spec.nPorts n.model PortType.Out) cid) ∧
      (∀ cid, tail.count ((Event.killConnection cid : Event Data)) = 0) ∧
      n'.state.inEntries = resizeEntries n.state.inEntries
        (spec.nPorts n.model PortType.In) ∧
      n'.state.outEntries = resizeEntries n.state.outEntries
        (spec.nPorts n.model PortType.Out) ∧
      n'.state.inEntries.length = spec.nPorts n.model PortType.In ∧
      n'.state.outEntries.length = spec.nPorts n.model PortType.Out ∧
      Event.recalculateSize ∈ tail := by
  refine ⟨_, Event.geomUpdatePortCount :: recalcVisualEvents Data,
    onPortCountChanged_eq spec n g hg, ?_, ?_, ?_, rfl, rfl, ?_, ?_, ?_⟩
  · intro cid
    exact killEvents_count n.state.inEntries (spec.nPorts n.model PortType.In) cid
  · intro cid
    exact killEvents_count n.state.outEntries (spec.nPorts n.model PortType.Out) cid
  · intro cid
    rw [List.count_eq_zero]
    simp [recalcVisualEvents]
  · exact resizeEntries_length n.state.inEntries (spec.nPorts n.model PortType.In)
  · exact resizeEntries_length n.state.outEntries (spec.nPorts n.model PortType.Out)
  · simp [recalcVisualEvents]

theorem portCountChange_kills_dead_connections_witness :
    ∃ n' tail,
      demoNodeShrink.onPortCountChanged demoSpec = some (n',
        killEvents demoNodeShrink.state.inEntries 1 ++
          (killEvents demoNodeShrink.state.outEntries 1 ++ []) ++ tail) ∧
      (∀ cid, (killEvents demoNodeShrink.state.inEntries 1).count
          (Event.killConnection cid) =
        deadKillCount demoNodeShrink.state.inEntries 1 cid) ∧
      (∀ cid, (killEvents demoNodeShrink.state.outEntries 1).count
          (Event.killConnection cid) =
        deadKillCount demoNodeShrink.state.outEntries 1 cid) ∧
      (∀ cid, tail.count ((Event.killConnection cid : Event Nat)) = 0) ∧
      n'.state.inEntries = resizeEntries demoNodeShrink.state.inEntries 1 ∧
      n'.state.outEntries = resizeEntries demoNodeShrink.state.outEntries 1 ∧
      n'.state.inEntries.length = 1 ∧
      n'.state.outEntries.length = 1 ∧
      Event.recalculateSize ∈ tail :=
  portCountChange_kills_dead_connections demoSpec demoNodeShrink demoGfx rfl

/-- C8: with the graphics object attached and a data model whose
`restore` undoes its `save`, feeding a node's own `save()` output back
through `restore` is the identity on the node: in particular the id and
the graphics object's position are unchanged. -/
theorem restore_save_roundtrip (spec : ModelSpec Data M) (n : Node Data M)
    (g : NodeGraphicsObject) (hg : n.graphicsObject = some g)
    (hmodel : spec.restore n.model (spec.save n.model) = n.model) :
    ∃ js, n.save spec = some js ∧ n.restore spec js = some n := by
  refine ⟨savedJson spec n g, save_eq spec n g hg, ?_⟩
  rw [restore_eq spec n (savedJson spec n g) g hg]
  have h1 : jToString (jGet (savedJson spec n g) "id") = uuidRender n.uid := rfl
  have h2 : jToObject (jGet (savedJson spec n g) "model") = spec.save n.model := rfl
  have h3 : jToDouble (jGet (jToObject (jGet (savedJson spec n g) "position")) "x") =
      g.pos.x := rfl
  have h4 : jToDouble (jGet (jToObject (jGet (savedJson spec n g) "position")) "y") =
      g.pos.y := rfl
  rw [h1, h2, h3, h4, uuidParse_uuidRender, hmodel]
  show some { n with uid := n.uid, model := n.model, graphicsObject := some g } = some n
  rw [← hg]

theorem restore_save_roundtrip_witness :
    demoSpec.restore demoNode.model (demoSpec.save demoNode.model) = demoNode.model ∧
    ∃ js, demoNode.save demoSpec = some js ∧
      demoNode.restore demoSpec js = some demoNode := by
  have hm : demoSpec.restore demoNode.model (demoSpec.save demoNode.model) =
      demoNode.model := by
    simp [demoSpec, demoNode, jGet, jToDouble]
  exact ⟨hm, restore_save_roundtrip demoSpec demoNode demoGfx rfl hm⟩

theorem onDataUpdated_propagates_witness :
    (demoNode.onDataUpdated demoSpec 0).1 = demoNode ∧
    (demoNode.onDataUpdated demoSpec 0).2 = [Event.connPropagateData 7 1] :=
  ⟨(onDataUpdated_propagates demoSpec demoNode 0).1,
   (onDataUpdated_propagates demoSpec demoNode 0).2.1⟩

end QtNodes
